import Mathlib

/-!
Verification of the element-condition polling subsystem of `behave-webdriver`
(`behave_webdriver/__init__.py`), centred on `BehaveDriver.wait_for_element_condition`
(lines 573-615) together with the condition dispatch table (lines 588-596), the
timeout computation (lines 583-586), the locator inference (lines 603-606 and
`get_element`, lines 211-216).

Modelling decisions:
* All durations are integer milliseconds. Python's `ms` argument is already in
  milliseconds (`round(ms / 1000, 3)` is exact for integer `ms`); the
  `default_wait` attribute is in seconds in Python and is represented here
  premultiplied by 1000 (so Python's `default_wait or 1.5` fallback literal
  becomes 1500). Python falsiness of a number is `= 0` and of a string is `= ""`,
  of `None` it is always falsy; optional arguments are `Option`.
* The predicate factories live in `behave_webdriver.conditions`, a module of this
  repository that is not part of the provided sources; their behaviour is
  modelled from the spec (section 4.1).
* Selenium's `WebDriverWait.until` is an external dependency. It is modelled by
  its documented semantics: evaluate the supplied predicate; if the value is
  truthy return it, otherwise sleep the poll interval (0.5 s = 500 ms) and, when
  the accumulated elapsed time exceeds the timeout, raise `TimeoutException`.
  Poll attempts are indexed 0, 1, 2, ...; the browser session is modelled as a
  function from the attempt index to the session state visible at that attempt
  (predicate evaluation itself is treated as taking no time, so attempt `i`
  starts at elapsed time `500 * i` ms). The run is instrumented with the number
  of predicate evaluations (`attempts`) and of poll-interval sleeps (`sleeps`)
  so that temporal claims can be stated.
* Exceptions are an explicit `Except`; `wait_for_element_condition` returns the
  driver unchanged in the `driverAfter` field, which makes the absence of writes
  to `self` observable (the source only ever reads `self.driver` and
  `self.default_wait` and issues element queries).
-/

namespace BehaveWebdriver

/-- The two selenium `By` locator strategies that this code uses. -/
inductive By
  | XPATH
  | CSS_SELECTOR
deriving DecidableEq, Repr

/-- Modelled from the spec (section 4.1 and 6): the observable state of a located
element, restricted to what the six condition predicates inspect (visibility,
enabled state, selected/checked state, rendered text, value property). -/
structure ElementState where
  visible : Bool
  enabled : Bool
  selected : Bool
  text : String
  value : Option String
deriving DecidableEq, Repr

/-- Modelled from the spec (section 6): the browser session, consumed as a black
box through `locate(kind, selectorString) -> ElementHandle | LocateFailure`. -/
structure SessionState where
  locate : By → String → Option ElementState

/-- The six predicate factories imported from `behave_webdriver.conditions`
(lines 14-19 of `__init__.py`). The module itself is not among the provided
sources, so a factory is represented by its name; its semantics is
`evalPred` below, modelled from the spec. -/
inductive ConditionFactory
  | element_is_present
  | element_is_selected
  | element_contains_value
  | element_is_visible
  | element_contains_text
  | element_is_enabled
deriving DecidableEq, Repr

/-- A truthy value produced by one predicate evaluation: the located element, or
a bare "satisfied" marker when the predicate succeeds without an element in
hand (spec section 4.1: locating failures under `negative=true` count as
satisfying the negated condition — the explicit `exist` edge case). -/
inductive PredValue
  | elem (e : ElementState)
  | satisfied
deriving DecidableEq, Repr

/-- Python exceptions relevant to the subsystem: selenium's `TimeoutException`
and the `KeyError` of the dict lookup `condition_text_map[condition]`. -/
inductive PyExn
  | timeoutException
  | keyError (key : String)
deriving DecidableEq, Repr

/-- `needle.data` occurs contiguously inside `hay.data`: substring containment,
used by the two `contain a ...` predicates. -/
def strContains (hay needle : String) : Bool :=
  (List.range (hay.data.length + 1)).any
    (fun i => needle.data.isPrefixOf (hay.data.drop i))

/-- Modelled from the spec (section 4.1, contract table): whether the
underlying (un-negated) condition currently holds. `st` is the outcome of the
locate query (`none` = not locatable, never fatal); `needle` is the
caller-supplied substring the two `contain a ...` factories were constructed
with (the spec names it, the poller does not pass it, so it is an ambient
parameter of the model). -/
def underlyingHolds (c : ConditionFactory) (needle : String) (st : Option ElementState) : Bool :=
  match c, st with
  | .element_is_present, st => st.isSome
  | .element_is_visible, some e => e.visible
  | .element_is_enabled, some e => e.enabled
  | .element_is_selected, some e => e.selected
  | .element_contains_text, some e => strContains e.text needle
  | .element_contains_value, some e =>
      match e.value with
      | some v => strContains v needle
      | none => false
  | _, none => false

/-- Modelled from the spec (section 4.1): one predicate evaluation. Success
(`some _`) exactly when the underlying condition's truth differs from the
`negative` polarity flag; on success the located element is returned, or the
bare `satisfied` marker when no element was locatable (the `negative` `exist`
edge case). Failure is the falsy `none`, absorbed by the retry loop. -/
def evalPred (c : ConditionFactory) (negative : Bool) (needle : String)
    (st : Option ElementState) : Option PredValue :=
  if underlyingHolds c needle st ≠ negative then
    match st with
    | some e => some (.elem e)
    | none => some .satisfied
  else none

/-- Lines 588-596: the `condition_text_map` dict, as an exact-match lookup. -/
def condition_text_map (c : String) : Option ConditionFactory :=
  if c = "be checked" then some .element_is_selected
  else if c = "be enabled" then some .element_is_enabled
  else if c = "be selected" then some .element_is_selected
  else if c = "be visible" then some .element_is_visible
  else if c = "contain a text" then some .element_contains_text
  else if c = "contain a value" then some .element_contains_value
  else if c = "exist" then some .element_is_present
  else none

/-- Lines 598-601: `if condition: expected = condition_text_map[condition]
else: expected = element_is_present`. A `None` or empty-string condition is
falsy, so it selects `element_is_present` without touching the dict; a truthy
unrecognized name raises `KeyError`. -/
def conditionResolve (condition : Option String) : Except PyExn ConditionFactory :=
  match condition with
  | some c =>
      if c = "" then .ok .element_is_present
      else
        match condition_text_map c with
        | some f => .ok f
        | none => .error (.keyError c)
  | none => .ok .element_is_present

/-- Lines 583-586: the effective wait duration in milliseconds.
`if not ms: seconds = self.default_wait or 1.5 else: seconds = round(ms/1000, 3)`;
both `ms` and `default_wait` are tested for falsiness, so `some 0` behaves
like `none` in both positions. -/
def waitTimeoutMs (default_wait : Option Nat) (ms : Option Nat) : Nat :=
  if ms.getD 0 = 0 then
    match default_wait with
    | some w => if w = 0 then 1500 else w
    | none => 1500
  else ms.getD 0

/-- Lines 603-606: locator inference from the selector prefix. -/
def waitLocator (element : String) : By × String :=
  if element.startsWith "//" then (By.XPATH, element) else (By.CSS_SELECTOR, element)

/-- Which `find_element` call `get_element` (lines 200-216) dispatches to. -/
inductive FindStrategy
  | explicitBy (b : By)
  | xpath
  | cssSelector
deriving DecidableEq, Repr

/-- Lines 211-216 of `get_element`: an explicit truthy `by` argument wins;
otherwise `find_element_by_xpath` when the selector starts with `//`, else
`find_element_by_css_selector`. -/
def get_element (selector : String) (by_ : Option By) : FindStrategy :=
  match by_ with
  | some b => .explicitBy b
  | none =>
      if selector.startsWith "//" then .xpath else .cssSelector

/-- Instrumented outcome of one `WebDriverWait.until` run: the returned truthy
value or the raised `TimeoutException`, plus how many predicate evaluations
and poll-interval sleeps occurred. -/
structure UntilRun where
  result : Except PyExn PredValue
  attempts : Nat
  sleeps : Nat
deriving Repr

/-- The selenium poll interval, `WebDriverWait.POLL_FREQUENCY` (0.5 s), in ms. -/
def pollIntervalMs : Nat := 500

/-- The loop body of selenium's `WebDriverWait.until`, with the time check
precomputed as fuel: evaluate the predicate at attempt `i`; a truthy value
returns immediately (one attempt, no sleep); otherwise sleep one poll interval
and retry, raising `TimeoutException` when the fuel (the number of attempts
the timeout permits) is exhausted. -/
def untilGo (pred : Nat → Option PredValue) : Nat → Nat → UntilRun
  | _, 0 => ⟨.error .timeoutException, 0, 0⟩
  | i, fuel + 1 =>
      match pred i with
      | some v => ⟨.ok v, 1, 0⟩
      | none =>
          ⟨(untilGo pred (i + 1) fuel).result, (untilGo pred (i + 1) fuel).attempts + 1,
            (untilGo pred (i + 1) fuel).sleeps + 1⟩

/-- Selenium's `WebDriverWait(driver, seconds).until(method)`: attempt `i`
starts at elapsed time `500 * i` ms, so exactly the attempts with
`500 * i ≤ timeoutMs` occur, i.e. `timeoutMs / 500 + 1` of them; after the
last permitted attempt fails the accumulated elapsed time exceeds the timeout
and `TimeoutException` is raised. -/
def webDriverWaitUntil (pred : Nat → Option PredValue) (timeoutMs : Nat) : UntilRun :=
  untilGo pred 0 (timeoutMs / pollIntervalMs + 1)

/-- Lines 49-56: the `BehaveDriver` holds the injected selenium driver (whose
observable face is the session over poll attempts) and the optional
`default_wait` (here in ms). -/
structure BehaveDriver where
  session : Nat → SessionState
  default_wait : Option Nat

/-- Instrumented outcome of one `wait_for_element_condition` call: the returned
value (`ok (some v)` for a satisfied wait, `ok none` after a caught
`TimeoutException`) or an uncaught exception, the poll instrumentation, and
the `BehaveDriver` as it stands after the call. -/
structure WaitRun where
  result : Except PyExn (Option PredValue)
  attempts : Nat
  sleeps : Nat
  driverAfter : BehaveDriver

/-- Lines 610-615: the `try: result = wait.until(...) except TimeoutException:
result = None` block — exactly `TimeoutException` is caught and turned into a
`None` result; any other exception propagates. The driver is untouched. -/
def catchTimeout (d : BehaveDriver) (r : UntilRun) : WaitRun :=
  match r.result with
  | .ok v => ⟨.ok (some v), r.attempts, r.sleeps, d⟩
  | .error .timeoutException => ⟨.ok none, r.attempts, r.sleeps, d⟩
  | .error e => ⟨.error e, r.attempts, r.sleeps, d⟩

/-- Lines 573-615, `BehaveDriver.wait_for_element_condition`: compute the wait
duration, resolve the condition name (a truthy unrecognized name raises
`KeyError` — at that point no locator has been built and no poll has run,
hence zero attempts), infer the locator from the selector prefix, poll via
`WebDriverWait(self.driver, seconds).until(expected(locator, negative=...))`,
and catch exactly `TimeoutException`, turning it into a `None` result.
`needle` is the ambient substring parameter of the spec-modelled `contain a
...` predicates. -/
def wait_for_element_condition (d : BehaveDriver) (element : String) (ms : Option Nat)
    (negative : Bool) (condition : Option String) (needle : String) : WaitRun :=
  match conditionResolve condition with
  | .error e => ⟨.error e, 0, 0, d⟩
  | .ok expected =>
      catchTimeout d (webDriverWaitUntil
        (fun i => evalPred expected negative needle
          ((d.session i).locate (waitLocator element).1 (waitLocator element).2))
        (waitTimeoutMs d.default_wait ms))

/-- A session in which no selector locates anything. -/
def emptySession : SessionState := ⟨fun _ _ => none⟩

/-- A demonstration element: visible, enabled, not selected. -/
def demoElem : ElementState :=
  { visible := true, enabled := true, selected := false, text := "Save", value := none }

/-- A driver whose session never locates any element, with no `default_wait`. -/
def emptyDriver : BehaveDriver := ⟨fun _ => emptySession, none⟩

/-- A driver whose session locates `demoElem` for every selector from the very
first poll, with no `default_wait`. -/
def demoDriver : BehaveDriver := ⟨fun _ => ⟨fun _ _ => some demoElem⟩, none⟩

example : (wait_for_element_condition emptyDriver ".missing" (some 100) false none "").result
    = .ok none := rfl

example : (wait_for_element_condition demoDriver "#a" (some 100) false (some "exist") "").result
    = .ok (some (.elem demoElem)) := rfl

example : (wait_for_element_condition demoDriver "#a" (some 100) false (some "bogus") "").result
    = .error (.keyError "bogus") := rfl

example : (wait_for_element_condition emptyDriver ".x" (some 2000) false none "").attempts
    = 5 := rfl

/-- A name absent from the `condition_text_map` dict is looked up as `none`. -/
lemma condition_text_map_eq_none (c : String)
    (h : c ∉ (["be checked", "be enabled", "be selected", "be visible",
               "contain a text", "contain a value", "exist"] : List String)) :
    condition_text_map c = none := by
  simp only [List.mem_cons, List.not_mem_nil, or_false, not_or] at h
  obtain ⟨h1, h2, h3, h4, h5, h6, h7⟩ := h
  simp [condition_text_map, h1, h2, h3, h4, h5, h6, h7]

/-- If every poll fails, the until loop ends in `TimeoutException`. -/
lemma untilGo_result_of_allNone (pred : Nat → Option PredValue)
    (hfail : ∀ i, pred i = none) :
    ∀ (fuel i : Nat), (untilGo pred i fuel).result = .error .timeoutException := by
  intro fuel
  induction fuel with
  | zero => intro i; rfl
  | succ n ih =>
      intro i
      unfold untilGo
      rw [hfail i]
      exact ih (i + 1)

/-- If the first successful poll (relative to start index `i`) is attempt
`i + k` and the fuel permits attempt `k`, the until loop returns that poll's
value after exactly `k + 1` predicate evaluations and `k` sleeps. -/
lemma untilGo_firstSuccess (pred : Nat → Option PredValue) (v : PredValue) :
    ∀ (k fuel i : Nat), k < fuel → (∀ j < k, pred (i + j) = none) →
      pred (i + k) = some v → untilGo pred i fuel = ⟨.ok v, k + 1, k⟩ := by
  intro k
  induction k with
  | zero =>
      intro fuel i hk hb hs
      match fuel, hk with
      | fuel + 1, _ =>
        unfold untilGo
        rw [show pred i = some v from hs]
  | succ n ih =>
      intro fuel i hk hb hs
      match fuel, hk with
      | fuel + 1, hk =>
        unfold untilGo
        rw [show pred i = none from hb 0 (Nat.succ_pos n)]
        have h2 := ih fuel (i + 1) (Nat.lt_of_succ_lt_succ hk)
          (fun j hj => by rw [Nat.add_right_comm]; exact hb (j + 1) (Nat.succ_lt_succ hj))
          (by rw [Nat.add_right_comm]; exact hs)
        rw [h2]

/-- When the condition resolves, `wait_for_element_condition` is the caught
until-run over the inferred locator and computed timeout. -/
lemma wait_eq_catch (d : BehaveDriver) (element : String) (ms : Option Nat)
    (negative : Bool) (condition : Option String) (needle : String) (f : ConditionFactory)
    (hres : conditionResolve condition = .ok f) :
    wait_for_element_condition d element ms negative condition needle
      = catchTimeout d (webDriverWaitUntil
          (fun i => evalPred f negative needle
            ((d.session i).locate (waitLocator element).1 (waitLocator element).2))
          (waitTimeoutMs d.default_wait ms)) := by
  unfold wait_for_element_condition
  rw [hres]

/-- When the condition lookup raises, `wait_for_element_condition` propagates
the exception with zero attempts and zero sleeps, leaving the driver as is. -/
lemma wait_eq_err (d : BehaveDriver) (element : String) (ms : Option Nat)
    (negative : Bool) (condition : Option String) (needle : String) (e : PyExn)
    (hres : conditionResolve condition = .error e) :
    wait_for_element_condition d element ms negative condition needle
      = ⟨.error e, 0, 0, d⟩ := by
  unfold wait_for_element_condition
  rw [hres]

/-- Catching a `TimeoutException` yields a `None` result. -/
lemma catchTimeout_of_timeout (d : BehaveDriver) (r : UntilRun)
    (h : r.result = .error .timeoutException) :
    catchTimeout d r = ⟨.ok none, r.attempts, r.sleeps, d⟩ := by
  unfold catchTimeout
  rw [h]

/-- The try/except wrapper never touches the driver. -/
lemma catchTimeout_driverAfter (d : BehaveDriver) (r : UntilRun) :
    (catchTimeout d r).driverAfter = d := by
  unfold catchTimeout
  cases h : r.result with
  | ok v => rfl
  | error e => cases e <;> rfl

/-- C1: for every selector, timeout, polarity and recognized (or absent)
condition name, when no poll attempt satisfies the condition,
`wait_for_element_condition` returns `None` without raising: the timeout is
reported only through the `ok none` return value. -/
theorem wait_timeout_returns_none (d : BehaveDriver) (element : String) (ms : Option Nat)
    (negative : Bool) (condition : Option String) (needle : String) (f : ConditionFactory)
    (hres : conditionResolve condition = .ok f)
    (hfail : ∀ i, evalPred f negative needle
      ((d.session i).locate (waitLocator element).1 (waitLocator element).2) = none) :
    (wait_for_element_condition d element ms negative condition needle).result = .ok none := by
  have h := untilGo_result_of_allNone _ hfail
    (waitTimeoutMs d.default_wait ms / pollIntervalMs + 1) 0
  rw [wait_eq_catch d element ms negative condition needle f hres]
  unfold webDriverWaitUntil
  rw [catchTimeout_of_timeout d _ h]

/-- C1 witness: a never-locatable selector with the default (`exist`)
condition and a 100 ms timeout yields `ok none`. -/
theorem wait_timeout_returns_none_witness :
    (wait_for_element_condition emptyDriver ".missing" (some 100) false none "").result
      = .ok none :=
  wait_timeout_returns_none emptyDriver ".missing" (some 100) false none ""
    ConditionFactory.element_is_present rfl (fun _ => rfl)

/-- C2: a non-empty condition name outside the seven enumerated phrases makes
`wait_for_element_condition` raise `KeyError` before any locator is built or
any poll runs (zero attempts and sleeps, uniformly in the selector, timeout,
polarity and driver), and the error is not caught. -/
theorem wait_unknown_condition_keyerror (d : BehaveDriver) (element : String) (ms : Option Nat)
    (negative : Bool) (needle c : String) (hne : c ≠ "")
    (hmem : c ∉ (["be checked", "be enabled", "be selected", "be visible",
                  "contain a text", "contain a value", "exist"] : List String)) :
    wait_for_element_condition d element ms negative (some c) needle
      = ⟨.error (.keyError c), 0, 0, d⟩ := by
  have hres : conditionResolve (some c) = .error (.keyError c) := by
    simp only [conditionResolve]
    rw [if_neg hne, condition_text_map_eq_none c hmem]
  exact wait_eq_err d element ms negative (some c) needle _ hres

/-- C2 witness: the unknown name `"is clickable"` raises `KeyError` with zero
poll attempts. -/
theorem wait_unknown_condition_keyerror_witness :
    wait_for_element_condition demoDriver "#a" (some 100) false (some "is clickable") ""
      = ⟨.error (.keyError "is clickable"), 0, 0, demoDriver⟩ :=
  wait_unknown_condition_keyerror demoDriver "#a" (some 100) false "" "is clickable"
    (by decide) (by decide)

/-- C6: an absent condition behaves identically to an explicit `exist`
condition — the calls are equal as whole instrumented runs. -/
theorem wait_absent_condition_is_exist (d : BehaveDriver) (element : String) (ms : Option Nat)
    (negative : Bool) (needle : String) :
    wait_for_element_condition d element ms negative none needle
      = wait_for_element_condition d element ms negative (some "exist") needle := rfl

/-- C8: `wait_for_element_condition` mutates nothing: the `BehaveDriver` (its
driver/session reference and its `default_wait`) after the call is exactly the
one passed in, for every input. -/
theorem wait_leaves_driver_unchanged (d : BehaveDriver) (element : String) (ms : Option Nat)
    (negative : Bool) (condition : Option String) (needle : String) :
    (wait_for_element_condition d element ms negative condition needle).driverAfter = d := by
  unfold wait_for_element_condition
  cases conditionResolve condition with
  | error e => rfl
  | ok f => exact catchTimeout_driverAfter d _

/-- C9: an explicit timeout of 0 ms is falsy, hence treated exactly like an
omitted timeout — the computed wait duration and the whole call coincide with
the `ms = none` case, for every configured `default_wait`. -/
theorem wait_zero_ms_like_omitted (d : BehaveDriver) (element : String)
    (negative : Bool) (condition : Option String) (needle : String) :
    waitTimeoutMs d.default_wait (some 0) = waitTimeoutMs d.default_wait none
    ∧ wait_for_element_condition d element (some 0) negative condition needle
      = wait_for_element_condition d element none negative condition needle :=
  ⟨rfl, rfl⟩

/-- C10: the empty-string condition name is falsy, so it raises no `KeyError`
and silently falls back to the presence (`exist`) predicate: the resolution
yields `element_is_present` and the whole call equals the explicit `exist`
call. -/
theorem wait_empty_condition_falls_back (d : BehaveDriver) (element : String) (ms : Option Nat)
    (negative : Bool) (needle : String) :
    conditionResolve (some "") = .ok ConditionFactory.element_is_present
    ∧ wait_for_element_condition d element ms negative (some "") needle
      = wait_for_element_condition d element ms negative (some "exist") needle :=
  ⟨rfl, rfl⟩

/-- C3 counterexample: configuring `default_wait = 0` (a configured value) does
not make the omitted-`ms` wait duration 0 — the falsy check `self.default_wait
or 1.5` replaces it with the 1500 ms literal, so the claim's "uses the
configured `default_wait` value ... for every configured value" fails. -/
theorem default_wait_zero_not_used :
    waitTimeoutMs (some 0) none = 1500 ∧ waitTimeoutMs (some 0) none ≠ 0 := by
  decide

/-- C3 amended: when `ms` is omitted, the wait duration is 1500 ms if no
`default_wait` was configured, the configured `default_wait` whenever it is
set to a truthy (nonzero) value, and 1500 ms again for a configured
`default_wait` of 0 (which is falsy). -/
theorem wait_default_timeout (w : Nat) (hw : w ≠ 0) :
    waitTimeoutMs none none = 1500 ∧ waitTimeoutMs (some w) none = w
    ∧ waitTimeoutMs (some 0) none = 1500 := by
  refine ⟨rfl, ?_, rfl⟩
  simp [waitTimeoutMs, hw]

/-- C3 amended witness: a configured `default_wait` of 2000 ms is used as is. -/
theorem wait_default_timeout_witness :
    waitTimeoutMs none none = 1500 ∧ waitTimeoutMs (some 2000) none = 2000
    ∧ waitTimeoutMs (some 0) none = 1500 :=
  wait_default_timeout 2000 (by decide)

/-- C4 counterexample: the dispatch is not one-to-one — the two distinct names
`"be checked"` and `"be selected"` resolve to the same predicate factory. -/
theorem condition_map_not_injective :
    condition_text_map "be checked" = condition_text_map "be selected"
    ∧ "be checked" ≠ "be selected" := by
  decide

/-- C4 amended: the seven enumerated phrases map onto six factories:
`"be checked"` and `"be selected"` both resolve to `element_is_selected`,
and after identifying that pair the dispatch is one-to-one — the remaining
six pairwise-distinct names yield pairwise-distinct factories. -/
theorem condition_map_seven_names_six_factories :
    condition_text_map "be checked" = some ConditionFactory.element_is_selected
    ∧ condition_text_map "be selected" = some ConditionFactory.element_is_selected
    ∧ [condition_text_map "be checked", condition_text_map "be enabled",
       condition_text_map "be visible", condition_text_map "contain a text",
       condition_text_map "contain a value", condition_text_map "exist"].Pairwise (· ≠ ·) := by
  decide

/-- C5: the locator kind is inferred solely from the selector prefix — both
the locator built by `wait_for_element_condition` and the dispatch of
`get_element` without an explicit `by` use XPath exactly when the selector
starts with `//`, and a CSS selector otherwise. -/
theorem selector_kind_inference (selector : String) :
    (waitLocator selector = (By.XPATH, selector) ↔ selector.startsWith "//" = true)
    ∧ (waitLocator selector = (By.CSS_SELECTOR, selector) ↔ selector.startsWith "//" = false)
    ∧ (get_element selector none = FindStrategy.xpath ↔ selector.startsWith "//" = true)
    ∧ (get_element selector none = FindStrategy.cssSelector
        ↔ selector.startsWith "//" = false) := by
  cases h : selector.startsWith "//" <;> simp [waitLocator, get_element, h]

/-- C7: if the first satisfied poll is attempt `k` (all earlier attempts fail,
attempt `k` is within the timeout), `wait_for_element_condition` returns that
poll's value immediately: exactly `k + 1` predicate evaluations and `k`
sleeps occur — in particular a predicate true on the first attempt returns
after one evaluation and zero sleeps. -/
theorem wait_first_success_immediate (d : BehaveDriver) (element : String) (ms : Option Nat)
    (negative : Bool) (condition : Option String) (needle : String) (f : ConditionFactory)
    (k : Nat) (v : PredValue)
    (hres : conditionResolve condition = .ok f)
    (hk : pollIntervalMs * k ≤ waitTimeoutMs d.default_wait ms)
    (hbefore : ∀ j < k, evalPred f negative needle
      ((d.session j).locate (waitLocator element).1 (waitLocator element).2) = none)
    (hsucc : evalPred f negative needle
      ((d.session k).locate (waitLocator element).1 (waitLocator element).2) = some v) :
    wait_for_element_condition d element ms negative condition needle
      = ⟨.ok (some v), k + 1, k, d⟩ := by
  have hfuel : k < waitTimeoutMs d.default_wait ms / pollIntervalMs + 1 := by
    have hdiv : k ≤ waitTimeoutMs d.default_wait ms / pollIntervalMs :=
      (Nat.le_div_iff_mul_le (by decide)).2 (by rw [Nat.mul_comm]; exact hk)
    omega
  have huntil := untilGo_firstSuccess (fun i => evalPred f negative needle
      ((d.session i).locate (waitLocator element).1 (waitLocator element).2)) v k
      (waitTimeoutMs d.default_wait ms / pollIntervalMs + 1) 0 hfuel
      (fun j hj => by simpa using hbefore j hj) (by simpa using hsucc)
  rw [wait_eq_catch d element ms negative condition needle f hres]
  unfold webDriverWaitUntil
  rw [huntil]
  rfl

/-- C7 witness: a condition satisfied at the very first poll (`be visible` on
an immediately visible element, 100 ms timeout) returns the element with one
predicate evaluation and no sleep. -/
theorem wait_first_success_immediate_witness :
    wait_for_element_condition demoDriver "#a" (some 100) false (some "be visible") ""
      = ⟨.ok (some (.elem demoElem)), 1, 0, demoDriver⟩ :=
  wait_first_success_immediate demoDriver "#a" (some 100) false (some "be visible") ""
    ConditionFactory.element_is_visible 0 (PredValue.elem demoElem) rfl (by decide)
    (fun j hj => absurd hj (Nat.not_lt_zero j)) rfl

end BehaveWebdriver
